import Mathlib

/-!
Shallow embedding of the rankCentral backend comparison pipeline
(src/backend/comparisons) and proofs about it.

Python floats that the claims exercise only at exactly representable
values are modelled as rationals; Python ints as Int/Nat; dictionaries
as structures; exceptions as explicit sum types.
-/

namespace RankCentral

/-- A single criterion evaluation, as produced by CriterionEvaluator and
stored under evaluation_details.criterion_evaluations
(src/backend/comparisons/criterion_evaluator.py, document_comparator.py). -/
structure CritEval where
  criterion_name : String := ""
  document_a_score : ℚ := 0
  document_b_score : ℚ := 0
  winner : String := "N/A"
deriving Repr, DecidableEq

/-- A pairwise comparison result dictionary, as produced by
DocumentComparator.compare and stored in ComparisonEngine.comparison_results.
`winner` is `none` for Python None (engine error path), otherwise the winning
document's name, "Tie" or "Error".  `error` is "N/A" on success
(src/backend/comparisons/document_comparator.py lines 180-192). -/
structure CompResult where
  document_a : String
  document_b : String
  winner : Option String
  error : String := "N/A"
  criterion_evaluations : List CritEval := []
  overall_a : ℚ := 0
  overall_b : ℚ := 0
deriving Repr, DecidableEq

/-! ## mergesort_ranking.py -/

/-- Embeds `_merge_with_comparator` (src/backend/comparisons/mergesort_ranking.py
lines 102-132): while both lists are nonempty, compare the heads; a
comparator result >= 0 emits the left head, otherwise the right head;
then append whatever remains. -/
def merge_with_comparator (cmp : String → String → Int) :
    List String → List String → List String
  | [], r => r
  | a :: l, [] => a :: l
  | a :: l, b :: r =>
    if 0 ≤ cmp a b then a :: merge_with_comparator cmp l (b :: r)
    else b :: merge_with_comparator cmp (a :: l) r
termination_by l r => l.length + r.length

/-- Embeds `mergesort_with_comparator` (src/backend/comparisons/mergesort_ranking.py
lines 76-99): lists of length <= 1 are returned as-is; otherwise split at
len // 2, recurse on both halves and merge. -/
def mergesort_with_comparator (cmp : String → String → Int)
    (items : List String) : List String :=
  if items.length ≤ 1 then items
  else
    let mid := items.length / 2
    merge_with_comparator cmp
      (mergesort_with_comparator cmp (items.take mid))
      (mergesort_with_comparator cmp (items.drop mid))
termination_by items.length
decreasing_by
  · simp only [List.length_take]
    omega
  · simp only [List.length_drop]
    omega

/-- Embeds `compare_with_mergesort` (src/backend/comparisons/comparison_engine.py
lines 109-134), with the comparison function abstracted: returns the input
when it has at most one element, otherwise sorts with
`mergesort_with_comparator`. -/
def compare_with_mergesort (cmp : String → String → Int)
    (documents : List String) : List String :=
  if documents.length ≤ 1 then documents
  else mergesort_with_comparator cmp documents

/-! ## comparison_engine.py: the pairwise-comparison cache -/

/-- The inverted copy built for a reverse-orientation cache hit
(src/backend/comparisons/comparison_engine.py lines 93-105): copy the stored
result, overwrite document_a/document_b with the queried orientation, and
if the stored winner equals the stored document_a (resp. document_b) set the
winner to doc1 (resp. doc2).  All other fields are copied unchanged. -/
def invertResult (doc1 doc2 : String) (r : CompResult) : CompResult :=
  let inv := { r with document_a := doc1, document_b := doc2 }
  if r.winner = some r.document_a then { inv with winner := some doc1 }
  else if r.winner = some r.document_b then { inv with winner := some doc2 }
  else inv

/-- Embeds `_find_existing_comparison` (src/backend/comparisons/comparison_engine.py
lines 76-107): scan the log in order; return a direct match as-is, a
reverse match inverted, `none` if no entry matches. -/
def find_existing_comparison (doc1 doc2 : String) :
    List CompResult → Option CompResult
  | [] => none
  | r :: rest =>
    if r.document_a = doc1 ∧ r.document_b = doc2 then some r
    else if r.document_a = doc2 ∧ r.document_b = doc1 then
      some (invertResult doc1 doc2 r)
    else find_existing_comparison doc1 doc2 rest

/-- Outcome of one call to DocumentComparator.compare, abstracted: either a
result payload (winner, error field, criterion evaluations — the
document_a/document_b fields are always set to the queried names by
document_comparator.py lines 180-183) or a raised exception caught by
comparison_engine.py lines 62-74. -/
inductive OracleOutcome where
  | ok (winner : Option String) (error : String) (evals : List CritEval)
  | raise (msg : String)

/-- The result appended to the log by `compare_documents` on a cache miss:
the comparator result on success (document_a/document_b are the queried
names, src/backend/comparisons/document_comparator.py lines 180-183), or the
engine's error dictionary with `winner = None`
(src/backend/comparisons/comparison_engine.py lines 67-72). -/
def oracleResult (doc1 doc2 : String) : OracleOutcome → CompResult
  | .ok w e evs =>
    { document_a := doc1, document_b := doc2, winner := w, error := e,
      criterion_evaluations := evs }
  | .raise msg =>
    { document_a := doc1, document_b := doc2, winner := none,
      error := "Error comparing " ++ doc1 ++ " vs " ++ doc2 ++ ": " ++ msg }

/-- One `compare_documents` call (src/backend/comparisons/comparison_engine.py
lines 38-74) over the comparison_results log: a cache hit returns the
(possibly inverted) stored result and leaves the log unchanged; a miss
invokes the document comparator and appends its result (also on the
exception path).  Returns (result, new log, whether the comparator ran). -/
def compare_documents (oracle : String → String → OracleOutcome)
    (doc1 doc2 : String) (log : List CompResult) :
    CompResult × List CompResult × Bool :=
  match find_existing_comparison doc1 doc2 log with
  | some r => (r, log, false)
  | none =>
    let r := oracleResult doc1 doc2 (oracle doc1 doc2)
    (r, log ++ [r], true)

/-- Run a sequence of `compare_documents` requests from a starting log,
returning the final log and the list of (doc1, doc2) requests for which the
document comparator was actually invoked. -/
def runEngine (oracle : String → String → OracleOutcome) :
    List (String × String) → List CompResult →
    List CompResult × List (String × String)
  | [], log => (log, [])
  | (d1, d2) :: rest, log =>
    let step := compare_documents oracle d1 d2 log
    let next := runEngine oracle rest step.2.1
    (next.1, if step.2.2 then (d1, d2) :: next.2 else next.2)

/-- Whether a logged result is about the unordered pair {x, y}
(its document_a/document_b are x, y in either order). -/
def matchesPair (x y : String) (r : CompResult) : Bool :=
  (r.document_a = x ∧ r.document_b = y) ∨ (r.document_a = y ∧ r.document_b = x)

/-- Whether a request (d1, d2) targets the unordered pair {x, y}. -/
def isPairRequest (x y : String) (p : String × String) : Bool :=
  (p.1 = x ∧ p.2 = y) ∨ (p.1 = y ∧ p.2 = x)

/-- Number of log entries about the unordered pair {x, y}. -/
def pairCount (x y : String) (log : List CompResult) : Nat :=
  log.countP (matchesPair x y)

/-! ## document_comparator.py -/

/-- One criterion as configured for a comparison: its weight, and the
evaluation (scores) the criterion judge returns for it. -/
structure CritOutcome where
  name : String
  weight : ℚ
  aScore : ℚ
  bScore : ℚ

/-- The per-criterion weighted-score accumulation of DocumentComparator.compare
(src/backend/comparisons/document_comparator.py lines 141-150): the running
total adds (score / 5) * weight for each criterion. -/
def weightedTotals : List CritOutcome → ℚ × ℚ
  | [] => (0, 0)
  | c :: rest =>
    let t := weightedTotals rest
    (c.aScore / 5 * c.weight + t.1, c.bScore / 5 * c.weight + t.2)

/-- Embeds the winner letter of `_determine_winner`
(src/backend/comparisons/document_comparator.py lines 213-216):
"A" if the first total is strictly greater else "B", overridden to "Tie"
on exact equality. -/
def determine_winner (a b : ℚ) : String :=
  let w := if a > b then "A" else "B"
  if a = b then "Tie" else w

/-- The winner name (src/backend/comparisons/document_comparator.py
lines 218-220). -/
def winnerName (doc1 doc2 : String) (a b : ℚ) : String :=
  let w := if determine_winner a b = "A" then doc1 else doc2
  if determine_winner a b = "Tie" then "Tie between documents" else w

/-- API-key validation shared by DocumentComparator and CriterionEvaluator
(document_comparator.py lines 45-61, criterion_evaluator.py lines 92-103):
the key must be a string of length > 20.  Keys are modelled as strings, so
only the length test remains. -/
def validate_api_key (key : String) : Bool :=
  key.length > 20

/-- The pair-level error result DocumentComparator.compare returns when the
API key fails validation (src/backend/comparisons/document_comparator.py
lines 79-94). -/
def invalidKeyResult (doc1 doc2 : String) : CompResult :=
  { document_a := doc1, document_b := doc2, winner := some "Error",
    error := "Invalid OpenAI API key", criterion_evaluations := [],
    overall_a := 0, overall_b := 0 }

/-- DocumentComparator.compare (src/backend/comparisons/document_comparator.py
lines 63-195), with the criterion judge's verdicts supplied as data: if the
key fails validation, short-circuit to the pair-level error result with zero
judge calls; otherwise evaluate every criterion (one judge call each),
accumulate weighted totals, and resolve the winner.  Returns the result and
the number of criterion-judge invocations. -/
def docCompare (key : String) (doc1 doc2 : String)
    (crits : List CritOutcome) : CompResult × Nat :=
  if ¬ validate_api_key key then (invalidKeyResult doc1 doc2, 0)
  else
    let t := weightedTotals crits
    let overall := determine_winner t.1 t.2
    ({ document_a := doc1, document_b := doc2,
       winner := if overall ≠ "Tie" then some (winnerName doc1 doc2 t.1 t.2)
                 else some "Tie",
       error := "N/A",
       criterion_evaluations := crits.map fun c =>
         { criterion_name := c.name, document_a_score := c.aScore,
           document_b_score := c.bScore },
       overall_a := t.1, overall_b := t.2 }, crits.length)

/-- Embeds `_comparison_function` (src/backend/comparisons/comparison_engine.py
lines 136-162) given the result `compare_documents` returned for
(doc1, doc2): equal names compare 0 before any lookup; a result whose error
field differs from "N/A" compares 0; a "Tie" or None winner compares 0;
winner == doc1 compares 1; anything else -1. -/
def comparison_function (doc1 doc2 : String) (result : CompResult) : Int :=
  if doc1 = doc2 then 0
  else if result.error ≠ "N/A" then 0
  else
    match result.winner with
    | none => 0
    | some w => if w = "Tie" then 0 else if w = doc1 then 1 else -1

/-- The response-token budget of DocumentComparator.compare
(src/backend/comparisons/document_comparator.py line 129):
max(1000, min(4096 - prompt_tokens - 50, 1500)), over Python ints. -/
def maxTokensFor (promptTokens : Nat) : Int :=
  max 1000 (min (4096 - (promptTokens : Int) - 50) 1500)

/-! ## criterion_evaluator.py -/

/-- A JSON value sitting in a score field, classified by how Python's
`float()` treats it: a number (int/float/bool), a string that parses as a
float, or anything on which `float()` raises ValueError/TypeError
(non-numeric string, null, list, object). -/
inductive PyVal where
  | num (q : ℚ)
  | numStr (q : ℚ)
  | badVal (s : String)
deriving Repr, DecidableEq

/-- Python `float()` on a score value: the numeric value when conversion
succeeds, `none` when it raises. -/
def pyFloat? : PyVal → Option ℚ
  | .num q => some q
  | .numStr q => some q
  | .badVal _ => none

/-- The parsed JSON verdict before validation: score and winner fields may
be absent (`none`); the free-text fields default to empty. -/
structure RawEval where
  document_a_score : Option PyVal := none
  document_b_score : Option PyVal := none
  winner : Option String := none
  document_a_analysis : String := ""
  document_b_analysis : String := ""
  comparative_analysis : String := ""
  reasoning : String := ""

/-- A criterion evaluation after CriterionEvaluator is done with it. -/
structure EvalOut where
  document_a_score : PyVal
  document_b_score : PyVal
  winner : String
  document_a_analysis : String := ""
  document_b_analysis : String := ""
  comparative_analysis : String := ""
  reasoning : String := ""
deriving Repr, DecidableEq

/-- Embeds `_validate_criterion_evaluation`
(src/backend/comparisons/criterion_evaluator.py lines 125-151): fill the
missing required fields (scores with 0, winner with "N/A"), then convert
both scores with `float()`; if either conversion raises, the except branch
sets both scores to 0.  Other fields pass through unchanged. -/
def validate_criterion_evaluation (e : RawEval) : EvalOut :=
  let a0 := e.document_a_score.getD (.num 0)
  let b0 := e.document_b_score.getD (.num 0)
  let w := e.winner.getD "N/A"
  match pyFloat? a0, pyFloat? b0 with
  | some qa, some qb =>
    { document_a_score := .num qa, document_b_score := .num qb, winner := w,
      document_a_analysis := e.document_a_analysis,
      document_b_analysis := e.document_b_analysis,
      comparative_analysis := e.comparative_analysis,
      reasoning := e.reasoning }
  | _, _ =>
    { document_a_score := .num 0, document_b_score := .num 0, winner := w,
      document_a_analysis := e.document_a_analysis,
      document_b_analysis := e.document_b_analysis,
      comparative_analysis := e.comparative_analysis,
      reasoning := e.reasoning }

/-- Embeds `_create_error_evaluation`
(src/backend/comparisons/criterion_evaluator.py lines 105-123): the fully
populated error verdict. -/
def create_error_evaluation (msg : String) : EvalOut :=
  { document_a_score := .num 0,
    document_b_score := .num 0,
    document_a_analysis := "Error: " ++ msg,
    document_b_analysis := "Error: " ++ msg,
    comparative_analysis := "Unable to compare due to error: " ++ msg,
    reasoning := "Error occurred: " ++ msg,
    winner := "N/A" }

/-- The LLM interaction inside CriterionEvaluator.evaluate: either the
client/API call raises (caught by the except branch) or it yields a reply
string. -/
inductive LLMOutcome where
  | raise (msg : String)
  | reply (content : String)

/-- CriterionEvaluator.evaluate
(src/backend/comparisons/criterion_evaluator.py lines 27-90).  `jsonLoads`
stands for the code-fence stripping and brace extraction (total string
slicing) composed with stdlib `json.loads` and field decoding: its `.error`
case is the JSONDecodeError the except branch catches.  An invalid key
short-circuits to the error verdict; a raised API call or a parse failure
is caught and converted to the error verdict; a parsed verdict is run
through `_validate_criterion_evaluation`. -/
def evaluate (jsonLoads : String → Except String RawEval) (key : String) :
    LLMOutcome → EvalOut
  | .raise e =>
    if ¬ validate_api_key key then
      create_error_evaluation "Invalid or missing API key"
    else create_error_evaluation ("Error during evaluation: " ++ e)
  | .reply content =>
    if ¬ validate_api_key key then
      create_error_evaluation "Invalid or missing API key"
    else
      match jsonLoads content with
      | .error e => create_error_evaluation ("Error during evaluation: " ++ e)
      | .ok raw => validate_criterion_evaluation raw

/-! ## data_processor.py -/

/-- The score list prepare_criterion_summary collects for one document and
one criterion (src/backend/comparisons/data_processor.py lines 222-236):
over every comparison and every criterion evaluation with the right
criterion name, take the document_a score if the document sat in position A
(else the document_b score if in position B), and keep it only when it is
strictly positive. -/
def docScoresFor (doc criterion : String) (results : List CompResult) :
    List ℚ :=
  results.flatMap fun comp =>
    comp.criterion_evaluations.filterMap fun e =>
      if e.criterion_name = criterion then
        if comp.document_a = doc then
          if e.document_a_score > 0 then some e.document_a_score else none
        else if comp.document_b = doc then
          if e.document_b_score > 0 then some e.document_b_score else none
        else none
      else none

/-- The per-criterion value prepare_criterion_summary stores in
doc_criterion_scores (src/backend/comparisons/data_processor.py lines
238-242): the mean of the collected scores when any exist, else 0.  (The
report entry then rounds this to two decimals, line 247.) -/
def criterionAverage (doc criterion : String) (results : List CompResult) :
    ℚ :=
  let scores := docScoresFor doc criterion results
  if scores ≠ [] then scores.sum / scores.length else 0

/-- Modelled from the spec's words, for comparison with `docScoresFor`
(claim C6): every per-criterion score of the document across every logged
comparison in which it appeared, with no positivity filter. -/
def specAllScores (doc criterion : String) (results : List CompResult) :
    List ℚ :=
  results.flatMap fun comp =>
    comp.criterion_evaluations.filterMap fun e =>
      if e.criterion_name = criterion then
        if comp.document_a = doc then some e.document_a_score
        else if comp.document_b = doc then some e.document_b_score
        else none
      else none

/-- Modelled from the spec's words (claim C6): the arithmetic mean of the
document's scores over every logged comparison in which it appeared. -/
def specMeanScore (doc criterion : String) (results : List CompResult) : ℚ :=
  let scores := specAllScores doc criterion results
  if scores ≠ [] then scores.sum / scores.length else 0

/-! ## Concrete instances used by counterexamples and witnesses -/

/-- A stored comparison of Y vs X in which Y (the stored document_a) won. -/
def c2Stored : CompResult :=
  { document_a := "Y", document_b := "X", winner := some "Y", error := "N/A" }

/-- Two logged comparisons in which document D appears with criterion-C
scores 4 and 0. -/
def c6Results : List CompResult :=
  [{ document_a := "D", document_b := "E", winner := some "D",
     error := "N/A",
     criterion_evaluations :=
       [{ criterion_name := "C", document_a_score := 4,
          document_b_score := 2 }] },
   { document_a := "D", document_b := "F", winner := some "F",
     error := "N/A",
     criterion_evaluations :=
       [{ criterion_name := "C", document_a_score := 0,
          document_b_score := 3 }] }]

/-- A document-comparator stub used to instantiate engine theorems. -/
def constOracle : String → String → OracleOutcome :=
  fun _ _ => .ok (some "Tie") "N/A" []

/-- The two-criteria instance of claim C5: weights 60 and 40, document A
scoring 5 and 0, document B scoring 0 and 5. -/
def c5Crits : List CritOutcome :=
  [{ name := "c1", weight := 60, aScore := 5, bScore := 0 },
   { name := "c2", weight := 40, aScore := 0, bScore := 5 }]

/-! ## Theorems -/

/-- Helper: merging permutes the concatenation of its inputs, whatever the
comparator does. -/
theorem merge_with_comparator_perm (cmp : String → String → Int) :
    ∀ l r, (merge_with_comparator cmp l r).Perm (l ++ r) := by
  intro l r
  induction l, r using merge_with_comparator.induct cmp with
  | case1 r => simp [merge_with_comparator]
  | case2 a l => simp [merge_with_comparator]
  | case3 a l b r h ih =>
    rw [merge_with_comparator, if_pos h]
    exact ih.cons a
  | case4 a l b r h ih =>
    rw [merge_with_comparator, if_neg h]
    exact (ih.cons b).trans List.perm_middle.symm

/-- Helper: the merge sort permutes its input, whatever the comparator
does. -/
theorem mergesort_with_comparator_perm (cmp : String → String → Int) :
    ∀ items, (mergesort_with_comparator cmp items).Perm items := by
  intro items
  induction items using mergesort_with_comparator.induct cmp with
  | case1 items h => rw [mergesort_with_comparator, if_pos h]
  | case2 items h mid ih1 ih2 =>
    rw [mergesort_with_comparator, if_neg h]
    refine (merge_with_comparator_perm cmp _ _).trans
      ((ih1.append ih2).trans ?_)
    rw [List.take_append_drop]

/-- C1: for every comparator (including inconsistent or constant ones) and
every input list of document ids, `mergesort_with_comparator` — and
`compare_with_mergesort`, which invokes it — returns a permutation of
exactly the input ids: same length, no id duplicated, no id lost. -/
theorem mergesort_returns_permutation (cmp : String → String → Int)
    (items : List String) :
    (mergesort_with_comparator cmp items).Perm items ∧
    (compare_with_mergesort cmp items).Perm items := by
  refine ⟨mergesort_with_comparator_perm cmp items, ?_⟩
  rw [compare_with_mergesort]
  split
  · exact List.Perm.refl items
  · exact mergesort_with_comparator_perm cmp items

/-- Helper: with an everywhere-tie comparator the merge concatenates. -/
theorem merge_all_tie (cmp : String → String → Int)
    (hc : ∀ a b, cmp a b = 0) :
    ∀ l r, merge_with_comparator cmp l r = l ++ r := by
  intro l r
  induction l, r using merge_with_comparator.induct cmp with
  | case1 r => rw [merge_with_comparator]; rfl
  | case2 a l => rw [merge_with_comparator, List.append_nil]
  | case3 a l b r h ih =>
    rw [merge_with_comparator, if_pos h, ih]
    rfl
  | case4 a l b r h ih =>
    exact absurd (le_of_eq (hc a b).symm) h

/-- Helper: with an everywhere-tie comparator the merge sort is the
identity. -/
theorem mergesort_all_tie (cmp : String → String → Int)
    (hc : ∀ a b, cmp a b = 0) :
    ∀ items, mergesort_with_comparator cmp items = items := by
  intro items
  induction items using mergesort_with_comparator.induct cmp with
  | case1 items h => rw [mergesort_with_comparator, if_pos h]
  | case2 items h mid ih1 ih2 =>
    rw [mergesort_with_comparator, if_neg h]
    dsimp only
    rw [ih1, ih2, merge_all_tie cmp hc, List.take_append_drop]

/-- C4: if the comparator reports a tie (0) for every comparison, the
ranking returns the input list in its original order, and in every merge
step a tie (comparator result 0) emits the head of the left half before
any element of the right half. -/
theorem all_ties_preserve_input_order (cmp : String → String → Int)
    (hc : ∀ a b, cmp a b = 0) :
    (∀ items, mergesort_with_comparator cmp items = items) ∧
    (∀ a l b r, merge_with_comparator cmp (a :: l) (b :: r) =
      a :: merge_with_comparator cmp l (b :: r)) := by
  refine ⟨mergesort_all_tie cmp hc, fun a l b r => ?_⟩
  rw [merge_with_comparator, if_pos (le_of_eq (hc a b).symm)]

/-- Witness for C4: the all-tie comparator on [A, B, C, D] returns
[A, B, C, D]. -/
theorem all_ties_preserve_input_order_witness :
    mergesort_with_comparator (fun _ _ => 0) ["A", "B", "C", "D"] =
      ["A", "B", "C", "D"] :=
  (all_ties_preserve_input_order (fun _ _ => 0) (fun _ _ => rfl)).1
    ["A", "B", "C", "D"]

/-- C2 (counter-evidence): with a stored comparison of Y vs X won by Y
(the stored winner field holds the winning document's name "Y"), the cache
lookup for (X, Y) returns a result whose winner field is "X": the inversion
swaps the name-valued winner and so flips the identity of the winning
document instead of preserving it. -/
theorem cache_reverse_hit_flips_winner :
    c2Stored.winner = some "Y" ∧
    find_existing_comparison "X" "Y" [c2Stored] =
      some { document_a := "X", document_b := "Y", winner := some "X",
             error := "N/A" } :=
  ⟨rfl, rfl⟩

/-- Helper: the weighted totals are the sums of (score / 5) * weight. -/
theorem weightedTotals_eq (crits : List CritOutcome) :
    weightedTotals crits =
      ((crits.map fun c => c.aScore / 5 * c.weight).sum,
       (crits.map fun c => c.bScore / 5 * c.weight).sum) := by
  induction crits with
  | nil => rfl
  | cons c cs ih => simp [weightedTotals, ih]

/-- Helper: `determine_winner` with the comparison spelled out. -/
theorem determine_winner_eq (a b : ℚ) :
    determine_winner a b =
      if a = b then "Tie" else if b < a then "A" else "B" := by
  rw [determine_winner]

/-- Helper: `determine_winner` resolves "A" exactly when the first total is
strictly larger, "B" exactly when it is strictly smaller, "Tie" exactly on
equality. -/
theorem determine_winner_cases (a b : ℚ) :
    (determine_winner a b = "A" ↔ b < a) ∧
    (determine_winner a b = "B" ↔ a < b) ∧
    (determine_winner a b = "Tie" ↔ a = b) := by
  rw [determine_winner_eq]
  rcases lt_trichotomy a b with h | h | h
  · rw [if_neg h.ne, if_neg (not_lt.mpr h.le)]
    exact ⟨⟨fun hx => absurd hx (by decide),
        fun hx => absurd hx (not_lt.mpr h.le)⟩,
      ⟨fun _ => h, fun _ => rfl⟩,
      ⟨fun hx => absurd hx (by decide), fun hx => absurd hx h.ne⟩⟩
  · rw [if_pos h]
    exact ⟨⟨fun hx => absurd hx (by decide),
        fun hx => absurd hx (by rw [h]; exact lt_irrefl b)⟩,
      ⟨fun hx => absurd hx (by decide),
        fun hx => absurd hx (by rw [h]; exact lt_irrefl b)⟩,
      ⟨fun _ => h, fun _ => rfl⟩⟩
  · rw [if_neg (ne_of_gt h), if_pos h]
    exact ⟨⟨fun _ => h, fun _ => rfl⟩,
      ⟨fun hx => absurd hx (by decide),
        fun hx => absurd hx (not_lt.mpr h.le)⟩,
      ⟨fun hx => absurd hx (by decide), fun hx => absurd hx (ne_of_gt h)⟩⟩

/-- C5: each document's weighted total is the sum over criteria of
(score / 5) * weight; the strictly higher total wins and exact equality
yields Tie; on the weight-60/40 instance with A scoring 5 and 0 and B
scoring 0 and 5, A's total is 60, B's is 40, and the winner is A. -/
theorem weighted_totals_and_winner (crits : List CritOutcome) (a b : ℚ) :
    (weightedTotals crits).1 =
      (crits.map fun c => c.aScore / 5 * c.weight).sum ∧
    (weightedTotals crits).2 =
      (crits.map fun c => c.bScore / 5 * c.weight).sum ∧
    (determine_winner a b = "A" ↔ b < a) ∧
    (determine_winner a b = "B" ↔ a < b) ∧
    (determine_winner a b = "Tie" ↔ a = b) ∧
    weightedTotals c5Crits = (60, 40) ∧
    determine_winner 60 40 = "A" := by
  obtain ⟨h1, h2, h3⟩ := determine_winner_cases a b
  refine ⟨by rw [weightedTotals_eq], by rw [weightedTotals_eq], h1, h2, h3,
    by norm_num [c5Crits, weightedTotals], ?_⟩
  rw [determine_winner_eq]
  norm_num

/-- C9: the response-token budget is at least 1000 and at most 1500, is
non-increasing in the prompt's token count, and for prompts of at most
2546 tokens the prompt plus the budget stays within 4046 tokens. -/
theorem max_tokens_budget (p : Nat) :
    1000 ≤ maxTokensFor p ∧ maxTokensFor p ≤ 1500 ∧
    (∀ q : Nat, p ≤ q → maxTokensFor q ≤ maxTokensFor p) ∧
    (p ≤ 2546 → (p : Int) + maxTokensFor p ≤ 4046) := by
  refine ⟨le_max_left _ _, ?_, fun q hq => ?_, fun hp => ?_⟩
  · exact max_le (by norm_num) (min_le_right _ _)
  · exact max_le_max le_rfl (min_le_min (by omega) le_rfl)
  · unfold maxTokensFor
    omega

/-- Witness for C9: at 2000 prompt tokens the budget is monotone versus
2600 tokens and respects the 4046 total. -/
theorem max_tokens_budget_witness :
    maxTokensFor 2600 ≤ maxTokensFor 2000 ∧
    (2000 : Int) + maxTokensFor 2000 ≤ 4046 :=
  ⟨(max_tokens_budget 2000).2.2.1 2600 (by norm_num),
   (max_tokens_budget 2000).2.2.2 (by norm_num)⟩

/-- C8: an invalid API key short-circuits DocumentComparator.compare to the
single pair-level error result with zero criterion-judge calls, and the
merge comparison function maps any result whose error field differs from
"N/A" — the pair-level error result included — to 0, exactly like a tie. -/
theorem invalid_key_short_circuits (key d1 d2 : String)
    (crits : List CritOutcome) (h : validate_api_key key = false) :
    docCompare key d1 d2 crits = (invalidKeyResult d1 d2, 0) ∧
    (∀ dx dy : String, ∀ r : CompResult, r.error ≠ "N/A" →
      comparison_function dx dy r = 0) ∧
    comparison_function d1 d2 (invalidKeyResult d1 d2) = 0 := by
  refine ⟨by simp [docCompare, h], fun dx dy r hr => ?_, ?_⟩
  · by_cases hd : dx = dy
    · simp [comparison_function, hd]
    · simp [comparison_function, hd, hr]
  · by_cases hd : d1 = d2
    · simp [comparison_function, hd]
    · simp [comparison_function, hd, invalidKeyResult]

/-- Witness for C8: a 5-character key fails validation, yields the error
result with zero judge calls, and the comparison function treats it as a
tie. -/
theorem invalid_key_short_circuits_witness :
    docCompare "short" "A" "B" [] = (invalidKeyResult "A" "B", 0) ∧
    comparison_function "A" "B" (invalidKeyResult "A" "B") = 0 :=
  ⟨(invalid_key_short_circuits "short" "A" "B" [] (by decide)).1,
   (invalid_key_short_circuits "short" "A" "B" [] (by decide)).2.2⟩

/-- C7: every failure mode of CriterionEvaluator.evaluate — invalid API
key, a raised oracle call, an unparseable reply — produces the fully
populated error verdict (both scores 0, winner "N/A", the analysis and
reasoning fields carrying the error text) instead of an exception. -/
theorem evaluate_failure_verdicts
    (jsonLoads : String → Except String RawEval) (key : String) :
    (∀ out, validate_api_key key = false →
        evaluate jsonLoads key out =
          create_error_evaluation "Invalid or missing API key") ∧
    (∀ e, validate_api_key key = true →
        evaluate jsonLoads key (.raise e) =
          create_error_evaluation ("Error during evaluation: " ++ e)) ∧
    (∀ c e, validate_api_key key = true → jsonLoads c = .error e →
        evaluate jsonLoads key (.reply c) =
          create_error_evaluation ("Error during evaluation: " ++ e)) ∧
    (∀ msg, (create_error_evaluation msg).document_a_score = .num 0 ∧
        (create_error_evaluation msg).document_b_score = .num 0 ∧
        (create_error_evaluation msg).winner = "N/A" ∧
        (create_error_evaluation msg).reasoning = "Error occurred: " ++ msg ∧
        (create_error_evaluation msg).document_a_analysis =
          "Error: " ++ msg) := by
  refine ⟨fun out h => ?_, fun e h => ?_, fun c e h hj => ?_,
    fun msg => ⟨rfl, rfl, rfl, rfl, rfl⟩⟩
  · cases out <;> simp [evaluate, h]
  · simp [evaluate, h]
  · simp [evaluate, h, hj]

/-- Witness for C7: a short key and a failing parse both yield the error
verdict. -/
theorem evaluate_failure_verdicts_witness :
    evaluate (fun _ => Except.error "boom") "k" (.reply "x") =
      create_error_evaluation "Invalid or missing API key" ∧
    evaluate (fun _ => Except.error "boom")
        "sk-01234567890123456789" (.reply "x") =
      create_error_evaluation ("Error during evaluation: " ++ "boom") :=
  ⟨(evaluate_failure_verdicts (fun _ => Except.error "boom") "k").1
      (.reply "x") (by decide),
   (evaluate_failure_verdicts (fun _ => Except.error "boom")
      "sk-01234567890123456789").2.2.1 "x" "boom" (by decide) rfl⟩

/-- C10: after `_validate_criterion_evaluation` both score fields are
numeric, and if either score field was present but not convertible by
`float()` then both score fields — the convertible one included — are 0. -/
theorem validated_scores_numeric (e : RawEval) :
    (∃ qa, (validate_criterion_evaluation e).document_a_score =
      PyVal.num qa) ∧
    (∃ qb, (validate_criterion_evaluation e).document_b_score =
      PyVal.num qb) ∧
    (∀ v, ((e.document_a_score = some v ∧ pyFloat? v = none) ∨
           (e.document_b_score = some v ∧ pyFloat? v = none)) →
      (validate_criterion_evaluation e).document_a_score = PyVal.num 0 ∧
      (validate_criterion_evaluation e).document_b_score = PyVal.num 0) := by
  rcases ha : pyFloat? (e.document_a_score.getD (.num 0)) with _ | qa <;>
    rcases hb : pyFloat? (e.document_b_score.getD (.num 0)) with _ | qb
  · refine ⟨⟨0, ?_⟩, ⟨0, ?_⟩, fun v hv => ⟨?_, ?_⟩⟩ <;>
      simp [validate_criterion_evaluation, ha, hb]
  · refine ⟨⟨0, ?_⟩, ⟨0, ?_⟩, fun v hv => ⟨?_, ?_⟩⟩ <;>
      simp [validate_criterion_evaluation, ha, hb]
  · refine ⟨⟨0, ?_⟩, ⟨0, ?_⟩, fun v hv => ⟨?_, ?_⟩⟩ <;>
      simp [validate_criterion_evaluation, ha, hb]
  · refine ⟨⟨qa, ?_⟩, ⟨qb, ?_⟩, fun v hv => ?_⟩
    · simp [validate_criterion_evaluation, ha, hb]
    · simp [validate_criterion_evaluation, ha, hb]
    · exfalso
      rcases hv with ⟨hva, hvn⟩ | ⟨hvb, hvn⟩
      · rw [hva, Option.getD_some, hvn] at ha
        cases ha
      · rw [hvb, Option.getD_some, hvn] at hb
        cases hb

/-- Witness for C10: a verdict whose document_a_score is a non-numeric
string and whose document_b_score is the number 3 is normalized to both
scores 0. -/
theorem validated_scores_numeric_witness :
    (validate_criterion_evaluation
      { document_a_score := some (.badVal "x"),
        document_b_score := some (.num 3) }).document_a_score =
      PyVal.num 0 ∧
    (validate_criterion_evaluation
      { document_a_score := some (.badVal "x"),
        document_b_score := some (.num 3) }).document_b_score =
      PyVal.num 0 :=
  (validated_scores_numeric
    { document_a_score := some (.badVal "x"),
      document_b_score := some (.num 3) }).2.2
    (.badVal "x") (Or.inl ⟨rfl, rfl⟩)

/-- Helper: a cache hit leaves the log unchanged and records no
invocation. -/
theorem runEngine_cons_hit (oracle : String → String → OracleOutcome)
    (d1 d2 : String) (rest : List (String × String)) (log : List CompResult)
    (r : CompResult) (hf : find_existing_comparison d1 d2 log = some r) :
    runEngine oracle ((d1, d2) :: rest) log = runEngine oracle rest log := by
  simp [runEngine, compare_documents, hf]

/-- Helper: a cache miss appends the comparator's result and records the
invocation. -/
theorem runEngine_cons_miss (oracle : String → String → OracleOutcome)
    (d1 d2 : String) (rest : List (String × String)) (log : List CompResult)
    (hf : find_existing_comparison d1 d2 log = none) :
    runEngine oracle ((d1, d2) :: rest) log =
      ((runEngine oracle rest
          (log ++ [oracleResult d1 d2 (oracle d1 d2)])).1,
        (d1, d2) :: (runEngine oracle rest
          (log ++ [oracleResult d1 d2 (oracle d1 d2)])).2) := by
  simp [runEngine, compare_documents, hf]

/-- Helper: a failed lookup means no log entry is about that pair. -/
theorem find_none_countP (d1 d2 : String) (log : List CompResult)
    (hf : find_existing_comparison d1 d2 log = none) :
    log.countP (matchesPair d1 d2) = 0 := by
  induction log with
  | nil => rfl
  | cons r rest ih =>
    rw [find_existing_comparison] at hf
    by_cases h1 : r.document_a = d1 ∧ r.document_b = d2
    · rw [if_pos h1] at hf
      cases hf
    · rw [if_neg h1] at hf
      by_cases h2 : r.document_a = d2 ∧ r.document_b = d1
      · rw [if_pos h2] at hf
        cases hf
      · rw [if_neg h2] at hf
        simp [List.countP_cons, ih hf, matchesPair, h1, h2]

/-- Helper: matchesPair is symmetric in the pair. -/
theorem matchesPair_comm (x y : String) (r : CompResult) :
    matchesPair y x r = matchesPair x y r := by
  simp only [matchesPair]
  rw [decide_eq_decide]
  exact or_comm

/-- Helper: the appended result is about the pair {x, y} exactly when the
request targets it. -/
theorem matchesPair_oracleResult (x y d1 d2 : String)
    (o : OracleOutcome) :
    matchesPair x y (oracleResult d1 d2 o) = isPairRequest x y (d1, d2) := by
  cases o <;> rfl

/-- Helper invariant: starting from a log with at most one entry about
{x, y}, the run keeps at most one such entry, and the number of comparator
invocations for the pair plus the starting entry count stays at most 1. -/
theorem runEngine_pair_invariant (oracle : String → String → OracleOutcome)
    (x y : String) :
    ∀ reqs log, pairCount x y log ≤ 1 →
      pairCount x y (runEngine oracle reqs log).1 ≤ 1 ∧
      (runEngine oracle reqs log).2.countP (isPairRequest x y) +
        pairCount x y log ≤ 1 := by
  intro reqs
  induction reqs with
  | nil =>
    intro log h
    constructor
    · simpa [runEngine] using h
    · simpa [runEngine] using h
  | cons p rest ih =>
    rcases p with ⟨d1, d2⟩
    intro log h
    rcases hf : find_existing_comparison d1 d2 log with _ | r
    · -- cache miss: the comparator runs and its result is appended
      rw [runEngine_cons_miss oracle d1 d2 rest log hf]
      by_cases hp : isPairRequest x y (d1, d2) = true
      · -- the request targets {x, y}: the log had no entry about it
        have hzero : pairCount x y log = 0 := by
          have hswap : log.countP (matchesPair d1 d2) = 0 :=
            find_none_countP d1 d2 log hf
          have : (d1 = x ∧ d2 = y) ∨ (d1 = y ∧ d2 = x) := by
            simpa [isPairRequest] using hp
          rcases this with ⟨hx1, hy1⟩ | ⟨hx1, hy1⟩
          · rw [pairCount, ← hx1, ← hy1]
            exact hswap
          · rw [pairCount]
            have : log.countP (matchesPair y x) = 0 := by
              rw [← hx1, ← hy1]
              exact hswap
            calc log.countP (matchesPair x y)
                = log.countP (matchesPair y x) := by
                  refine List.countP_congr fun r _ => ?_
                  rw [matchesPair_comm]
              _ = 0 := this
        have hone : pairCount x y
            (log ++ [oracleResult d1 d2 (oracle d1 d2)]) = 1 := by
          rw [pairCount, List.countP_append, ← pairCount, hzero]
          simp [List.countP_cons, matchesPair_oracleResult, hp]
        obtain ⟨ih1, ih2⟩ := ih (log ++ [oracleResult d1 d2 (oracle d1 d2)])
          (le_of_eq hone)
        refine ⟨ih1, ?_⟩
        rw [List.countP_cons]
        rw [hone] at ih2
        simp only [hp, if_pos]
        omega
      · -- the request targets another pair: the entry count is unchanged
        have hp' : isPairRequest x y (d1, d2) = false := by
          simpa using hp
        have hsame : pairCount x y
            (log ++ [oracleResult d1 d2 (oracle d1 d2)]) =
            pairCount x y log := by
          rw [pairCount, List.countP_append, ← pairCount]
          simp [List.countP_cons, matchesPair_oracleResult, hp']
        obtain ⟨ih1, ih2⟩ := ih (log ++ [oracleResult d1 d2 (oracle d1 d2)])
          (by rw [hsame]; exact h)
        refine ⟨ih1, ?_⟩
        rw [List.countP_cons, hp']
        rw [hsame] at ih2
        simpa using ih2
    · -- cache hit: nothing runs, nothing is appended
      rw [runEngine_cons_hit oracle d1 d2 rest log r hf]
      exact ih log h

/-- C3: over any sequence of compare_documents requests starting from an
empty log, and for any unordered pair of distinct document ids {x, y}, the
document comparator is invoked at most once for the pair and the final
comparison log holds at most one entry about it. -/
theorem unordered_pair_compared_once
    (oracle : String → String → OracleOutcome)
    (reqs : List (String × String)) (x y : String) (_hxy : x ≠ y) :
    pairCount x y (runEngine oracle reqs []).1 ≤ 1 ∧
    (runEngine oracle reqs []).2.countP (isPairRequest x y) ≤ 1 := by
  have h := runEngine_pair_invariant oracle x y reqs []
    (by simp [pairCount])
  refine ⟨h.1, ?_⟩
  have h2 := h.2
  rw [pairCount] at h2
  simpa using h2

/-- Witness for C3: three requests for the pair A/B in both orientations
leave at most one log entry and at most one invocation. -/
theorem unordered_pair_compared_once_witness :
    pairCount "A" "B"
      (runEngine constOracle [("A", "B"), ("B", "A"), ("A", "B")] []).1 ≤ 1 ∧
    (runEngine constOracle
      [("A", "B"), ("B", "A"), ("A", "B")] []).2.countP
        (isPairRequest "A" "B") ≤ 1 :=
  unordered_pair_compared_once constOracle
    [("A", "B"), ("B", "A"), ("A", "B")] "A" "B" (by decide)

/-- Helper: the scores prepare_criterion_summary collects are exactly the
document's scores over all its logged appearances, restricted to the
strictly positive ones. -/
theorem docScoresFor_eq_filter (doc criterion : String)
    (results : List CompResult) :
    docScoresFor doc criterion results =
      (specAllScores doc criterion results).filter
        fun q => decide (0 < q) := by
  rw [docScoresFor, specAllScores, List.filter_flatMap]
  congr 1
  funext comp
  rw [List.filter_filterMap]
  congr 1
  funext e
  by_cases h1 : e.criterion_name = criterion
  · rw [if_pos h1, if_pos h1]
    by_cases h2 : comp.document_a = doc
    · rw [if_pos h2, if_pos h2]
      by_cases h3 : e.document_a_score > 0
      · simp [Option.filter, h3]
      · simp [Option.filter, h3]
    · rw [if_neg h2, if_neg h2]
      by_cases h3 : comp.document_b = doc
      · rw [if_pos h3, if_pos h3]
        by_cases h4 : e.document_b_score > 0
        · simp [Option.filter, h4]
        · simp [Option.filter, h4]
      · rw [if_neg h3, if_neg h3]
        rfl
  · rw [if_neg h1, if_neg h1]
    rfl

/-- C6 (amended): the criterion-summary value for a document and criterion
is the arithmetic mean of the document's strictly positive per-criterion
scores across its logged appearances — zero scores are excluded from the
mean — and it is 0, with no division performed, when no positive score was
observed. -/
theorem criterion_average_positive_mean (doc criterion : String)
    (results : List CompResult) :
    docScoresFor doc criterion results =
      (specAllScores doc criterion results).filter
        (fun q => decide (0 < q)) ∧
    (docScoresFor doc criterion results = [] →
      criterionAverage doc criterion results = 0) ∧
    (docScoresFor doc criterion results ≠ [] →
      criterionAverage doc criterion results *
        (docScoresFor doc criterion results).length =
        (docScoresFor doc criterion results).sum) := by
  refine ⟨docScoresFor_eq_filter doc criterion results, fun h => ?_,
    fun h => ?_⟩
  · rw [criterionAverage]
    simp [h]
  · rw [criterionAverage]
    rw [if_pos h, div_mul_cancel₀]
    have hl : (docScoresFor doc criterion results).length ≠ 0 := by
      simpa using h
    exact Nat.cast_ne_zero.mpr hl

/-- Witness for C6 (amended): on the concrete log, the reported value times
the number of positive scores equals their sum. -/
theorem criterion_average_positive_mean_witness :
    criterionAverage "D" "C" c6Results *
      (docScoresFor "D" "C" c6Results).length =
      (docScoresFor "D" "C" c6Results).sum :=
  (criterion_average_positive_mean "D" "C" c6Results).2.2 (by decide)

/-- C6 (counterexample): document D appears in two logged comparisons with
criterion-C scores 4 and 0; the claim's mean over every appearance is 2,
but the code reports 4 because the zero score is filtered out. -/
theorem criterion_average_counterexample :
    criterionAverage "D" "C" c6Results = 4 ∧
    specMeanScore "D" "C" c6Results = 2 ∧
    (4 : ℚ) ≠ 2 := by
  have h1 : docScoresFor "D" "C" c6Results = [4] := by decide
  have h2 : specAllScores "D" "C" c6Results = [4, 0] := by decide
  refine ⟨?_, ?_, by norm_num⟩
  · rw [criterionAverage, h1]
    norm_num
  · rw [specMeanScore, h2]
    rw [if_pos (by simp : ([4, 0] : List ℚ) ≠ [])]
    norm_num

end RankCentral
